import Mathlib

/-!
Verification of `src/vulkano/src/instance/debug.rs` (the debug-callback
bridging layer of this vulkano fork).

The Rust module is shallowly embedded below:
- the two `u32` bitmask newtypes `MessageType` and `MessageSeverity` are
  structures wrapping `Nat` (all raw values involved are below `2 ^ 32` and
  the bitwise operations `|||`, `&&&`, `^^^` cannot overflow, so `Nat`
  bitwise arithmetic coincides with `u32` bitwise arithmetic);
- C strings reached through foreign pointers are modelled as
  `Option (List Nat)`: `Option.none` is the null pointer, `Option.some bs`
  a non-null pointer whose pointee bytes up to (and excluding) the NUL
  terminator are `bs`; `CStr::to_str` is UTF-8 validation of those bytes;
- Rust panics are the `Except RustPanic` monad: `Except.error` is an
  unwinding panic, `panic::catch_unwind` converts it into a discarded
  `Result`;
- `slice::from_raw_parts(ptr, count)` is `List.take count` on the list of
  values backing the pointer: exactly the first `count` entries are read;
- foreign calls made by `DebugCallback::new` / `Drop::drop` are recorded in
  an explicit event trace.
-/

namespace Vulkano

/-- `vk::FALSE`, the "do not abort the triggering operation" status code the
trampoline returns to the Vulkan layer. -/
def Vk.FALSE : Nat := 0

/-- A Rust panic (unwind) as an exceptional outcome. -/
inductive RustPanic where
  | panicked
deriving DecidableEq, Repr

/-- `panic::catch_unwind`: a panic is caught and turned into an `Option.none`
result (`Result::Err` in Rust); a normal return is passed through. -/
def catch_unwind (r : Except RustPanic α) : Option α :=
  match r with
  | Except.ok a => Option.some a
  | Except.error _ => Option.none

/-! ## Flag sets (debug.rs lines 193-320)

`MessageType` wraps `DebugUtilsMessageTypeFlagsEXT`, `MessageSeverity` wraps
`DebugUtilsMessageSeverityFlagBitsEXT`.  Each Rust operator impl becomes one
Lean function; the in-place operators `op_assign` take the old value of
`self` and return its new value. -/

/-- `pub struct MessageType(u32)` (debug.rs line 195). -/
structure MessageType where
  raw : Nat
deriving DecidableEq, Repr

namespace MessageType

/-- `pub const GENERAL : MessageType = MessageType(0x00000001)`. -/
def GENERAL : MessageType := ⟨0x00000001⟩

/-- `pub const VALIDATION : MessageType = MessageType(0x00000002)`. -/
def VALIDATION : MessageType := ⟨0x00000002⟩

/-- `pub const PERFORMANCE : MessageType = MessageType(0x00000004)`. -/
def PERFORMANCE : MessageType := ⟨0x00000004⟩

/-- `impl BitOr for MessageType` (line 213): `MessageType(self.0 | rhs.0)`. -/
def bitor (a rhs : MessageType) : MessageType := ⟨a.raw ||| rhs.raw⟩

/-- `impl BitOrAssign for MessageType` (line 220): `self.0 = self.0 | rhs.0`. -/
def bitor_assign (a rhs : MessageType) : MessageType := ⟨a.raw ||| rhs.raw⟩

/-- `impl BitAnd for MessageType` (line 226): `MessageType(self.0 & rhs.0)`. -/
def bitand (a rhs : MessageType) : MessageType := ⟨a.raw &&& rhs.raw⟩

/-- `impl BitAndAssign for MessageType` (line 233): the source assigns
`self.0 = self.0 & self.0` — the right-hand side is `self`, not `rhs`.
Embedded exactly as written. -/
def bitand_assign (a _rhs : MessageType) : MessageType := ⟨a.raw &&& a.raw⟩

/-- `impl BitXor for MessageType` (line 239): `MessageType(self.0 ^ rhs.0)`. -/
def bitxor (a rhs : MessageType) : MessageType := ⟨a.raw ^^^ rhs.raw⟩

/-- `impl BitXorAssign for MessageType` (line 246): `self.0 = self.0 ^ rhs.0`. -/
def bitxor_assign (a rhs : MessageType) : MessageType := ⟨a.raw ^^^ rhs.raw⟩

/-- `MessageType::all()` (line 202): `GENERAL | VALIDATION | PERFORMANCE`. -/
def all : MessageType := bitor (bitor GENERAL VALIDATION) PERFORMANCE

/-- `MessageType::none()` (line 207): `MessageType(0)`. -/
def none : MessageType := ⟨0⟩

/-- `#[derive(Default)]` on `MessageType(u32)` (line 194): the derived
default of a newtype over `u32` is the zero bit pattern. -/
def default : MessageType := ⟨0⟩

/-- A value assembled from the named constants by union: one summand per
selected constant.  This captures "values built from the named constants"
(any union over a subset of `{GENERAL, VALIDATION, PERFORMANCE}`,
with `none()` for the empty selection). -/
def ofSelection (g v p : Bool) : MessageType :=
  bitor (bitor (if g then GENERAL else none) (if v then VALIDATION else none))
    (if p then PERFORMANCE else none)

end MessageType

/-- `pub struct MessageSeverity(u32)` (debug.rs line 254). -/
structure MessageSeverity where
  raw : Nat
deriving DecidableEq, Repr

namespace MessageSeverity

/-- `pub const VERBOSE : MessageSeverity = MessageSeverity(0x00000001)`. -/
def VERBOSE : MessageSeverity := ⟨0x00000001⟩

/-- `pub const INFO : MessageSeverity = MessageSeverity(0x00000010)`. -/
def INFO : MessageSeverity := ⟨0x00000010⟩

/-- `pub const WARNING : MessageSeverity = MessageSeverity(0x00000100)`. -/
def WARNING : MessageSeverity := ⟨0x00000100⟩

/-- `pub const ERROR : MessageSeverity = MessageSeverity(0x00001000)`. -/
def ERROR : MessageSeverity := ⟨0x00001000⟩

/-- `impl BitOr for MessageSeverity` (line 270). -/
def bitor (a rhs : MessageSeverity) : MessageSeverity := ⟨a.raw ||| rhs.raw⟩

/-- `impl BitOrAssign for MessageSeverity` (line 278): `self.0 = self.0 | rhs.0`. -/
def bitor_assign (a rhs : MessageSeverity) : MessageSeverity := ⟨a.raw ||| rhs.raw⟩

/-- `impl BitAnd for MessageSeverity` (line 303). -/
def bitand (a rhs : MessageSeverity) : MessageSeverity := ⟨a.raw &&& rhs.raw⟩

/-- `impl BitAndAssign for MessageSeverity` (line 284): `self.0 = self.0 & rhs.0`
(this one does use `rhs`, unlike the `MessageType` counterpart). -/
def bitand_assign (a rhs : MessageSeverity) : MessageSeverity := ⟨a.raw &&& rhs.raw⟩

/-- `impl BitXor for MessageSeverity` (line 296). -/
def bitxor (a rhs : MessageSeverity) : MessageSeverity := ⟨a.raw ^^^ rhs.raw⟩

/-- `impl BitXorAssign for MessageSeverity` (line 290): `self.0 = self.0 ^ rhs.0`. -/
def bitxor_assign (a rhs : MessageSeverity) : MessageSeverity := ⟨a.raw ^^^ rhs.raw⟩

/-- `MessageSeverity::all()` (line 261): `VERBOSE | INFO | WARNING | ERROR`. -/
def all : MessageSeverity := bitor (bitor (bitor VERBOSE INFO) WARNING) ERROR

/-- `MessageSeverity::none()` (line 264): `MessageSeverity(0)`. -/
def none : MessageSeverity := ⟨0⟩

/-- `#[derive(Default)]` on `MessageSeverity(u32)` (line 253): zero bit
pattern. -/
def default : MessageSeverity := ⟨0⟩

/-- A value assembled from the named constants by union, one summand per
selected constant of `{VERBOSE, INFO, WARNING, ERROR}`. -/
def ofSelection (v i w e : Bool) : MessageSeverity :=
  bitor (bitor (bitor (if v then VERBOSE else none) (if i then INFO else none))
      (if w then WARNING else none))
    (if e then ERROR else none)

end MessageSeverity

/-- `pub struct MessageFilter` (debug.rs line 402). -/
structure MessageFilter where
  types : MessageType
  severity : MessageSeverity
deriving DecidableEq, Repr

namespace MessageFilter

/-- `MessageFilter::all()` (line 409). -/
def all : MessageFilter :=
  { severity := MessageSeverity.all, types := MessageType.all }

/-- `MessageFilter::none()` (line 417). -/
def none : MessageFilter :=
  { severity := MessageSeverity.none, types := MessageType.none }

/-- `MessageFilter::errors_and_warnings()` (line 425):
severity `WARNING | ERROR`, types `VALIDATION | GENERAL`. -/
def errors_and_warnings : MessageFilter :=
  { severity := MessageSeverity.bitor MessageSeverity.WARNING MessageSeverity.ERROR,
    types := MessageType.bitor MessageType.VALIDATION MessageType.GENERAL }

end MessageFilter

/-! ## UTF-8 decoding (`CStr::to_str`)

`str::from_utf8` accepts exactly well-formed UTF-8 (RFC 3629): no overlong
encodings, no surrogate code points, no code points above U+10FFFF.  The
byte-level validator below transcribes that grammar. -/

/-- A UTF-8 continuation byte: `0x80 ≤ b ≤ 0xBF`. -/
def isUtf8Cont (b : Nat) : Bool := 0x80 ≤ b && b ≤ 0xBF

/-- Well-formed UTF-8 byte sequences, as accepted by Rust
`str::from_utf8`. -/
def validUtf8 : List Nat → Bool
  | [] => true
  | b :: rest =>
    if b ≤ 0x7F then validUtf8 rest
    else if 0xC2 ≤ b && b ≤ 0xDF then
      match rest with
      | c1 :: rest2 => isUtf8Cont c1 && validUtf8 rest2
      | [] => false
    else if b == 0xE0 then
      match rest with
      | c1 :: c2 :: rest2 =>
        (0xA0 ≤ c1 && c1 ≤ 0xBF) && isUtf8Cont c2 && validUtf8 rest2
      | _ => false
    else if (0xE1 ≤ b && b ≤ 0xEC) || b == 0xEE || b == 0xEF then
      match rest with
      | c1 :: c2 :: rest2 => isUtf8Cont c1 && isUtf8Cont c2 && validUtf8 rest2
      | _ => false
    else if b == 0xED then
      match rest with
      | c1 :: c2 :: rest2 =>
        (0x80 ≤ c1 && c1 ≤ 0x9F) && isUtf8Cont c2 && validUtf8 rest2
      | _ => false
    else if b == 0xF0 then
      match rest with
      | c1 :: c2 :: c3 :: rest2 =>
        (0x90 ≤ c1 && c1 ≤ 0xBF) && isUtf8Cont c2 && isUtf8Cont c3 && validUtf8 rest2
      | _ => false
    else if 0xF1 ≤ b && b ≤ 0xF3 then
      match rest with
      | c1 :: c2 :: c3 :: rest2 =>
        isUtf8Cont c1 && isUtf8Cont c2 && isUtf8Cont c3 && validUtf8 rest2
      | _ => false
    else if b == 0xF4 then
      match rest with
      | c1 :: c2 :: c3 :: rest2 =>
        (0x80 ≤ c1 && c1 ≤ 0x8F) && isUtf8Cont c2 && isUtf8Cont c3 && validUtf8 rest2
      | _ => false
    else false

/-- `CStr::to_str` on the pointee bytes: `Result<&str, Utf8Error>` becomes
`Option`; a successfully decoded string is identified with its byte
sequence. -/
def to_str (bytes : List Nat) : Option (List Nat) :=
  if validUtf8 bytes then Option.some bytes else Option.none

/-- `.expect(...)` / `.unwrap()` applied to `to_str`: panics on a decode
failure. -/
def expectUtf8 (bytes : List Nat) : Except RustPanic (List Nat) :=
  match to_str bytes with
  | Option.some s => Except.ok s
  | Option.none => Except.error RustPanic.panicked

/-! ## Raw foreign records and the safe event-record model -/

/-- `vk::DebugUtilsLabelEXT`: a label name pointer (possibly null) and an
`[f32; 4]` color, embedded as the four raw 32-bit patterns (the color is
only ever copied verbatim, never computed with). -/
structure DebugUtilsLabelEXT where
  pLabelName : Option (List Nat)
  color : List Nat
deriving DecidableEq, Repr

/-- `vk::DebugUtilsObjectNameInfoEXT`: object type tag, 64-bit handle and an
object name pointer (possibly null). -/
structure DebugUtilsObjectNameInfoEXT where
  objectType : Nat
  objectHandle : Nat
  pObjectName : Option (List Nat)
deriving DecidableEq, Repr

/-- `vk::DebugUtilsMessengerCallbackDataEXT`: the foreign event record.  For
each of the three arrays, `p...` is the full memory block the array pointer
gives access to, and the `...Count` field the declared element count. -/
structure DebugUtilsMessengerCallbackDataEXT where
  pMessageIdName : List Nat
  messageIdNumber : Int
  pMessage : List Nat
  queueLabelCount : Nat
  pQueueLabels : List DebugUtilsLabelEXT
  cmdBufLabelCount : Nat
  pCmdBufLabels : List DebugUtilsLabelEXT
  objectCount : Nat
  pObjects : List DebugUtilsObjectNameInfoEXT
deriving DecidableEq, Repr

/-- `std::slice::from_raw_parts(ptr, count)`: exactly the first `count`
entries of the backing memory are read. -/
def slice_from_raw_parts (mem : List α) (count : Nat) : List α :=
  mem.take count

/-- `pub struct MessageLabel` (debug.rs line 351). -/
structure MessageLabel where
  name : List Nat
  color : List Nat
deriving DecidableEq, Repr

/-- `MessageLabel::from_raw` (debug.rs lines 357-369): a null name pointer
yields the empty string, a non-null one is decoded with `.unwrap()`
(panicking on invalid UTF-8); the color is copied verbatim. -/
def MessageLabel.from_raw (utils_label : DebugUtilsLabelEXT) :
    Except RustPanic MessageLabel :=
  match utils_label.pLabelName with
  | Option.none => Except.ok { name := [], color := utils_label.color }
  | Option.some p =>
    match to_str p with
    | Option.some s => Except.ok { name := s, color := utils_label.color }
    | Option.none => Except.error RustPanic.panicked

/-- `pub struct ObjectNameInfo` (debug.rs line 373). -/
structure ObjectNameInfo where
  ty : Nat
  handle : Nat
  name : List Nat
deriving DecidableEq, Repr

/-- `ObjectNameInfo::from_raw` (debug.rs lines 379-395): same null-pointer
and `.unwrap()` handling as `MessageLabel::from_raw`; type tag and handle
are copied verbatim. -/
def ObjectNameInfo.from_raw (utils_label : DebugUtilsObjectNameInfoEXT) :
    Except RustPanic ObjectNameInfo :=
  match utils_label.pObjectName with
  | Option.none =>
    Except.ok { ty := utils_label.objectType, handle := utils_label.objectHandle,
                name := [] }
  | Option.some p =>
    match to_str p with
    | Option.some s =>
      Except.ok { ty := utils_label.objectType, handle := utils_label.objectHandle,
                  name := s }
    | Option.none => Except.error RustPanic.panicked

/-- `pub struct Message` (debug.rs line 323). -/
structure Message where
  ty : MessageType
  severity : MessageSeverity
  id_number : Int
  id_name : List Nat
  description : List Nat
  queue_labels : List MessageLabel
  command_buffer_labels : List MessageLabel
  objects : List ObjectNameInfo
deriving DecidableEq, Repr

/-- `iter().map(from_raw).collect::<Vec<_>>()`: the elements are converted
front to back, and a panic inside `from_raw` aborts the whole collection at
the first failing element. -/
def mapRaw (f : α → Except RustPanic β) : List α → Except RustPanic (List β)
  | [] => Except.ok []
  | x :: xs =>
    match f x with
    | Except.error e => Except.error e
    | Except.ok y =>
      match mapRaw f xs with
      | Except.error e => Except.error e
      | Except.ok ys => Except.ok (y :: ys)

/-- The conversion part of the trampoline body (debug.rs lines 93-129): the
two always-present text fields are decoded with `.expect(...)` (panicking on
invalid UTF-8), then the three arrays are converted in source order
(command-buffer labels, queue labels, objects) and the `Message` is
assembled. -/
def convert (message_severity ty : Nat)
    (callback_data : DebugUtilsMessengerCallbackDataEXT) :
    Except RustPanic Message :=
  match expectUtf8 callback_data.pMessageIdName with
  | Except.error e => Except.error e
  | Except.ok message_id_name =>
    match expectUtf8 callback_data.pMessage with
    | Except.error e => Except.error e
    | Except.ok description =>
      match mapRaw MessageLabel.from_raw
          (slice_from_raw_parts callback_data.pCmdBufLabels
            callback_data.cmdBufLabelCount) with
      | Except.error e => Except.error e
      | Except.ok command_buffer_labels =>
        match mapRaw MessageLabel.from_raw
            (slice_from_raw_parts callback_data.pQueueLabels
              callback_data.queueLabelCount) with
        | Except.error e => Except.error e
        | Except.ok queue_labels =>
          match mapRaw ObjectNameInfo.from_raw
              (slice_from_raw_parts callback_data.pObjects
                callback_data.objectCount) with
          | Except.error e => Except.error e
          | Except.ok objects =>
            Except.ok
              { severity := MessageSeverity.mk message_severity,
                ty := MessageType.mk ty,
                id_number := callback_data.messageIdNumber,
                id_name := message_id_name,
                description := description,
                queue_labels := queue_labels,
                command_buffer_labels := command_buffer_labels,
                objects := objects }

/-- The dispatch trampoline `extern "system" fn callback` (debug.rs lines
86-139).  The user callback is modelled by its outcome on each message
(normal return or panic).  Conversion runs first, outside any barrier — a
conversion panic unwinds out of the trampoline.  The user-callback
invocation is wrapped in `panic::catch_unwind` and its result discarded
(`let _ = ...`); the trampoline then returns `vk::FALSE`. -/
def callback (message_severity ty : Nat)
    (callback_data : DebugUtilsMessengerCallbackDataEXT)
    (user_callback : Message → Except RustPanic Unit) : Except RustPanic Nat :=
  match convert message_severity ty callback_data with
  | Except.error e => Except.error e
  | Except.ok message =>
    let _r := catch_unwind (user_callback message)
    Except.ok Vk.FALSE

/-! ## Registration and release (`DebugCallback::new`, `Drop`) -/

/-- The subset of `InstanceExtensions` this module consults. -/
structure InstanceExtensions where
  ext_debug_utils : Bool
deriving DecidableEq, Repr

/-- The owning `Instance`, reduced to what `DebugCallback` observes: its
loaded-extensions record. -/
structure Instance where
  loaded_extensions : InstanceExtensions
deriving DecidableEq, Repr

/-- `pub enum DebugCallbackCreationError` (debug.rs line 435). -/
inductive DebugCallbackCreationError where
  | MissingExtension
deriving DecidableEq, Repr

/-- `pub struct DebugCallback` (debug.rs line 64): the `Arc<Instance>`
reference and the registration token (the boxed user-callback capsule
carries no observable state of its own). -/
structure DebugCallback where
  instance_ : Instance
  debug_utils_messenger : Nat
deriving DecidableEq, Repr

/-- Externally observable events issued by the handle lifecycle: the two
foreign entry points it calls, and the release of its shared `Arc`
reference to the owning instance. -/
inductive TraceEvent where
  | createDebugUtilsMessenger (severity : Nat) (types : Nat)
  | destroyDebugUtilsMessenger (messenger : Nat)
  | releaseInstanceRef
deriving DecidableEq, Repr

/-- Is this event the deregistration call? -/
def TraceEvent.isDestroy : TraceEvent → Bool
  | TraceEvent.destroyDebugUtilsMessenger _ => true
  | _ => false

/-- Outcome of `DebugCallback::new`: `Err` (creation error), `Ok` (a live
handle), or a panic — the `From<Error>` impl (debug.rs line 457) panics when
`check_errors` reports an unexpected foreign failure. -/
inductive NewOutcome where
  | panicked
  | failed (e : DebugCallbackCreationError)
  | created (cb : DebugCallback)
deriving DecidableEq, Repr

/-- `DebugCallback::new` (debug.rs lines 74-167).  `create_result` stands
for the foreign layer's answer to `CreateDebugUtilsMessengerEXT` (an error
code or a messenger token); the returned list records the foreign calls
made, in order.  If `ext_debug_utils` was not loaded, the function returns
`MissingExtension` before any foreign call. -/
def DebugCallback.new (inst : Instance) (filter : MessageFilter)
    (create_result : Except Nat Nat) : NewOutcome × List TraceEvent :=
  if !inst.loaded_extensions.ext_debug_utils then
    (NewOutcome.failed DebugCallbackCreationError.MissingExtension, [])
  else
    match create_result with
    | Except.ok messenger =>
      (NewOutcome.created
        { instance_ := inst, debug_utils_messenger := messenger },
       [TraceEvent.createDebugUtilsMessenger filter.severity.raw filter.types.raw])
    | Except.error _e =>
      (NewOutcome.panicked,
       [TraceEvent.createDebugUtilsMessenger filter.severity.raw filter.types.raw])

/-- `impl Drop for DebugCallback` (debug.rs lines 181-191), as its event
trace.  The `drop` body makes the single `DestroyDebugUtilsMessengerEXT`
call; after the body returns, the struct fields are dropped, which releases
the handle's `Arc<Instance>` reference.  Rust runs `drop` at most once per
value, so this trace is emitted exactly once per handle. -/
def DebugCallback.drop (cb : DebugCallback) : List TraceEvent :=
  [TraceEvent.destroyDebugUtilsMessenger cb.debug_utils_messenger,
   TraceEvent.releaseInstanceRef]

/-! ## Concrete data used to instantiate theorems with hypotheses -/

/-- A minimal well-formed foreign record: empty texts, empty arrays. -/
def recEmpty : DebugUtilsMessengerCallbackDataEXT :=
  { pMessageIdName := [], messageIdNumber := 0, pMessage := [],
    queueLabelCount := 0, pQueueLabels := [],
    cmdBufLabelCount := 0, pCmdBufLabels := [],
    objectCount := 0, pObjects := [] }

/-- The `Message` that `recEmpty` converts to. -/
def msgEmpty : Message :=
  { severity := MessageSeverity.mk 0, ty := MessageType.mk 0, id_number := 0,
    id_name := [], description := [], queue_labels := [],
    command_buffer_labels := [], objects := [] }

/-- A foreign record with two queue labels, one command-buffer label and one
object; the backing arrays are one entry longer than the declared counts, so
reading past a declared length would be visible.  Label names: one ASCII
(`"a"` = byte 0x61), one null; the object is `{type 7, handle 0x42, name
"O"}` as in the end-to-end scenario of the spec. -/
def recFull : DebugUtilsMessengerCallbackDataEXT :=
  { pMessageIdName := [0x58], messageIdNumber := 3, pMessage := [0x59],
    queueLabelCount := 2,
    pQueueLabels :=
      [{ pLabelName := Option.some [0x61], color := [1, 2, 3, 4] },
       { pLabelName := Option.none, color := [5, 6, 7, 8] },
       { pLabelName := Option.some [0xFF], color := [0, 0, 0, 0] }],
    cmdBufLabelCount := 1,
    pCmdBufLabels :=
      [{ pLabelName := Option.some [0x62], color := [9, 10, 11, 12] },
       { pLabelName := Option.some [0xFF], color := [0, 0, 0, 0] }],
    objectCount := 1,
    pObjects :=
      [{ objectType := 7, objectHandle := 0x42, pObjectName := Option.some [0x4F] },
       { objectType := 0, objectHandle := 0, pObjectName := Option.some [0xFF] }] }

/-- The `Message` that `recFull` converts to (severity `ERROR`, category
`GENERAL`). -/
def msgFull : Message :=
  { severity := MessageSeverity.mk 0x1000, ty := MessageType.mk 0x1,
    id_number := 3, id_name := [0x58], description := [0x59],
    queue_labels :=
      [{ name := [0x61], color := [1, 2, 3, 4] },
       { name := [], color := [5, 6, 7, 8] }],
    command_buffer_labels := [{ name := [0x62], color := [9, 10, 11, 12] }],
    objects := [{ ty := 7, handle := 0x42, name := [0x4F] }] }

/-- A foreign record whose id-name text is not valid UTF-8 (lone byte
`0xFF`). -/
def recBadIdName : DebugUtilsMessengerCallbackDataEXT :=
  { pMessageIdName := [0xFF], messageIdNumber := 0, pMessage := [],
    queueLabelCount := 0, pQueueLabels := [],
    cmdBufLabelCount := 0, pCmdBufLabels := [],
    objectCount := 0, pObjects := [] }

/-! ## Helper lemmas -/

theorem mapRaw_ok_length {α β : Type} (f : α → Except RustPanic β) :
    ∀ {xs : List α} {ys : List β}, mapRaw f xs = Except.ok ys →
      ys.length = xs.length := by
  intro xs
  induction xs with
  | nil =>
    intro ys h
    simp only [mapRaw, Except.ok.injEq] at h
    subst h
    rfl
  | cons x xs ih =>
    intro ys h
    simp only [mapRaw] at h
    cases hf : f x with
    | error e => rw [hf] at h; exact absurd h (by simp)
    | ok y =>
      rw [hf] at h
      cases hm : mapRaw f xs with
      | error e => rw [hm] at h; exact absurd h (by simp)
      | ok ys2 =>
        rw [hm] at h
        simp only [Except.ok.injEq] at h
        subst h
        simp [ih hm]

theorem mapRaw_ok_get {α β : Type} (f : α → Except RustPanic β) :
    ∀ {xs : List α} {ys : List β}, mapRaw f xs = Except.ok ys →
      ∀ i, i < xs.length →
        ∃ x y, xs[i]? = some x ∧ ys[i]? = some y ∧ f x = Except.ok y := by
  intro xs
  induction xs with
  | nil =>
    intro ys _ i hi
    exact absurd hi (by simp)
  | cons x xs ih =>
    intro ys h i hi
    simp only [mapRaw] at h
    cases hf : f x with
    | error e => rw [hf] at h; exact absurd h (by simp)
    | ok y =>
      rw [hf] at h
      cases hm : mapRaw f xs with
      | error e => rw [hm] at h; exact absurd h (by simp)
      | ok ys2 =>
        rw [hm] at h
        simp only [Except.ok.injEq] at h
        subst h
        cases i with
        | zero => exact ⟨x, y, by simp, by simp, hf⟩
        | succ j =>
          have hj : j < xs.length := by
            simpa [Nat.succ_lt_succ_iff] using hi
          obtain ⟨x2, y2, hx2, hy2, hf2⟩ := ih hm j hj
          exact ⟨x2, y2, by simpa using hx2, by simpa using hy2, hf2⟩

theorem messageLabel_from_raw_fields {src : DebugUtilsLabelEXT} {lab : MessageLabel}
    (h : MessageLabel.from_raw src = Except.ok lab) :
    lab.color = src.color ∧ lab.name = src.pLabelName.getD [] := by
  unfold MessageLabel.from_raw at h
  cases hs : src.pLabelName with
  | none =>
    simp only [hs, Except.ok.injEq] at h
    subst h
    simp [hs]
  | some p =>
    simp only [hs] at h
    cases ht : to_str p with
    | none => rw [ht] at h; exact absurd h (by simp)
    | some s =>
      rw [ht] at h
      simp only [Except.ok.injEq] at h
      subst h
      have hsp : s = p := by
        unfold to_str at ht
        by_cases hv : validUtf8 p = true
        · rw [if_pos hv] at ht; exact (Option.some.injEq _ _ ▸ ht).symm
        · rw [if_neg hv] at ht; exact absurd ht (by simp)
      simp [hs, hsp]

theorem objectNameInfo_from_raw_fields {src : DebugUtilsObjectNameInfoEXT}
    {obj : ObjectNameInfo} (h : ObjectNameInfo.from_raw src = Except.ok obj) :
    obj.ty = src.objectType ∧ obj.handle = src.objectHandle ∧
      obj.name = src.pObjectName.getD [] := by
  unfold ObjectNameInfo.from_raw at h
  cases hs : src.pObjectName with
  | none =>
    simp only [hs, Except.ok.injEq] at h
    subst h
    simp [hs]
  | some p =>
    simp only [hs] at h
    cases ht : to_str p with
    | none => rw [ht] at h; exact absurd h (by simp)
    | some s =>
      rw [ht] at h
      simp only [Except.ok.injEq] at h
      subst h
      have hsp : s = p := by
        unfold to_str at ht
        by_cases hv : validUtf8 p = true
        · rw [if_pos hv] at ht; exact (Option.some.injEq _ _ ▸ ht).symm
        · rw [if_neg hv] at ht; exact absurd ht (by simp)
      simp [hs, hsp]

theorem messageType_eta_mk (a : MessageType) : MessageType.mk a.raw = a := rfl

theorem messageSeverity_eta_mk (a : MessageSeverity) : MessageSeverity.mk a.raw = a := rfl

/-! ## Claim theorems -/

/-- Claim C8: for both flag sets, union is commutative, intersection
satisfies `intersect(a, intersect(a, b)) = intersect(a, b)`, symmetric
difference holds exactly the bits set in exactly one operand (equivalently,
union intersected with the complement of the intersection, stated bitwise),
`none()` is the identity for union and absorbing for intersection, and
`all()` is the identity for intersection and absorbing for union on values
built from the named constants. -/
theorem flag_set_algebra :
    (∀ a b : MessageType, MessageType.bitor a b = MessageType.bitor b a) ∧
    (∀ a b : MessageSeverity, MessageSeverity.bitor a b = MessageSeverity.bitor b a) ∧
    (∀ a b : MessageType,
      MessageType.bitand a (MessageType.bitand a b) = MessageType.bitand a b) ∧
    (∀ a b : MessageSeverity,
      MessageSeverity.bitand a (MessageSeverity.bitand a b) = MessageSeverity.bitand a b) ∧
    (∀ (a b : MessageType) (i : Nat),
      (MessageType.bitxor a b).raw.testBit i =
        ((MessageType.bitor a b).raw.testBit i &&
          !(MessageType.bitand a b).raw.testBit i)) ∧
    (∀ (a b : MessageSeverity) (i : Nat),
      (MessageSeverity.bitxor a b).raw.testBit i =
        ((MessageSeverity.bitor a b).raw.testBit i &&
          !(MessageSeverity.bitand a b).raw.testBit i)) ∧
    (∀ a : MessageType,
      MessageType.bitor MessageType.none a = a ∧
      MessageType.bitor a MessageType.none = a ∧
      MessageType.bitand MessageType.none a = MessageType.none ∧
      MessageType.bitand a MessageType.none = MessageType.none) ∧
    (∀ a : MessageSeverity,
      MessageSeverity.bitor MessageSeverity.none a = a ∧
      MessageSeverity.bitor a MessageSeverity.none = a ∧
      MessageSeverity.bitand MessageSeverity.none a = MessageSeverity.none ∧
      MessageSeverity.bitand a MessageSeverity.none = MessageSeverity.none) ∧
    (∀ g v p : Bool,
      MessageType.bitand MessageType.all (MessageType.ofSelection g v p) =
        MessageType.ofSelection g v p ∧
      MessageType.bitand (MessageType.ofSelection g v p) MessageType.all =
        MessageType.ofSelection g v p ∧
      MessageType.bitor MessageType.all (MessageType.ofSelection g v p) =
        MessageType.all ∧
      MessageType.bitor (MessageType.ofSelection g v p) MessageType.all =
        MessageType.all) ∧
    (∀ v i w e : Bool,
      MessageSeverity.bitand MessageSeverity.all (MessageSeverity.ofSelection v i w e) =
        MessageSeverity.ofSelection v i w e ∧
      MessageSeverity.bitand (MessageSeverity.ofSelection v i w e) MessageSeverity.all =
        MessageSeverity.ofSelection v i w e ∧
      MessageSeverity.bitor MessageSeverity.all (MessageSeverity.ofSelection v i w e) =
        MessageSeverity.all ∧
      MessageSeverity.bitor (MessageSeverity.ofSelection v i w e) MessageSeverity.all =
        MessageSeverity.all) := by
  refine ⟨?_, ?_, ?_, ?_, ?_, ?_, ?_, ?_, ?_, ?_⟩
  · intro a b; simp [MessageType.bitor, Nat.lor_comm]
  · intro a b; simp [MessageSeverity.bitor, Nat.lor_comm]
  · intro a b
    simp only [MessageType.bitand]
    rw [← Nat.land_assoc, Nat.and_self]
  · intro a b
    simp only [MessageSeverity.bitand]
    rw [← Nat.land_assoc, Nat.and_self]
  · intro a b i
    simp only [MessageType.bitxor, MessageType.bitor, MessageType.bitand]
    cases ha : a.raw.testBit i <;> cases hb : b.raw.testBit i <;>
      simp [Nat.testBit_xor, Nat.testBit_lor, Nat.testBit_land, ha, hb]
  · intro a b i
    simp only [MessageSeverity.bitxor, MessageSeverity.bitor, MessageSeverity.bitand]
    cases ha : a.raw.testBit i <;> cases hb : b.raw.testBit i <;>
      simp [Nat.testBit_xor, Nat.testBit_lor, Nat.testBit_land, ha, hb]
  · intro a
    refine ⟨?_, ?_, ?_, ?_⟩ <;>
      simp [MessageType.bitor, MessageType.bitand, MessageType.none,
        Nat.zero_or, Nat.or_zero, Nat.zero_and, Nat.and_zero, messageType_eta_mk]
  · intro a
    refine ⟨?_, ?_, ?_, ?_⟩ <;>
      simp [MessageSeverity.bitor, MessageSeverity.bitand, MessageSeverity.none,
        Nat.zero_or, Nat.or_zero, Nat.zero_and, Nat.and_zero, messageSeverity_eta_mk]
  · decide
  · decide

/-- Claim C10: the `#[derive(Default)]` value of each flag set is `none()`,
the empty set with raw bit pattern zero, and is the identity for union. -/
theorem default_flags_are_none :
    MessageType.default = MessageType.none ∧
    MessageSeverity.default = MessageSeverity.none ∧
    MessageType.default.raw = 0 ∧
    MessageSeverity.default.raw = 0 ∧
    (∀ a : MessageType,
      MessageType.bitor MessageType.default a = a ∧
      MessageType.bitor a MessageType.default = a) ∧
    (∀ a : MessageSeverity,
      MessageSeverity.bitor MessageSeverity.default a = a ∧
      MessageSeverity.bitor a MessageSeverity.default = a) := by
  refine ⟨rfl, rfl, rfl, rfl, ?_, ?_⟩
  · intro a
    constructor <;>
      simp [MessageType.bitor, MessageType.default, Nat.zero_or, Nat.or_zero,
        messageType_eta_mk]
  · intro a
    constructor <;>
      simp [MessageSeverity.bitor, MessageSeverity.default, Nat.zero_or, Nat.or_zero,
        messageSeverity_eta_mk]

/-- Claim C7: the `errors_and_warnings` preset has severity exactly
`WARNING | ERROR` (raw `0x1100`) and category exactly
`VALIDATION | GENERAL` (raw `0x3`); neither component equals the
corresponding `all()`. -/
theorem errors_and_warnings_preset_exact :
    MessageFilter.errors_and_warnings.severity =
      MessageSeverity.bitor MessageSeverity.WARNING MessageSeverity.ERROR ∧
    MessageFilter.errors_and_warnings.types =
      MessageType.bitor MessageType.VALIDATION MessageType.GENERAL ∧
    MessageFilter.errors_and_warnings.severity.raw = 0x1100 ∧
    MessageFilter.errors_and_warnings.types.raw = 0x3 ∧
    MessageFilter.errors_and_warnings.severity ≠ MessageSeverity.all ∧
    MessageFilter.errors_and_warnings.types ≠ MessageType.all := by
  decide

/-- Claim C2 (defect witness): `MessageType`'s in-place intersection
computes `self.0 & self.0` instead of `self.0 & rhs.0`.  At
`a = GENERAL`, `b = VALIDATION`, the in-place form leaves `a = GENERAL`
while the two-operand intersection is `none()`, so the two disagree. -/
theorem message_type_bitand_assign_bug :
    MessageType.bitand_assign MessageType.GENERAL MessageType.VALIDATION =
      MessageType.GENERAL ∧
    MessageType.bitand MessageType.GENERAL MessageType.VALIDATION =
      MessageType.none ∧
    MessageType.bitand_assign MessageType.GENERAL MessageType.VALIDATION ≠
      MessageType.bitand MessageType.GENERAL MessageType.VALIDATION := by
  decide

/-- Claim C5: when the owning instance was created without the
`ext_debug_utils` extension, `DebugCallback::new` returns the
`MissingExtension` error synchronously and the foreign-call trace is
empty. -/
theorem new_missing_extension_no_foreign_calls
    (inst : Instance) (filter : MessageFilter) (create_result : Except Nat Nat)
    (h : inst.loaded_extensions.ext_debug_utils = false) :
    DebugCallback.new inst filter create_result =
      (NewOutcome.failed DebugCallbackCreationError.MissingExtension, []) := by
  simp [DebugCallback.new, h]

/-- Instantiation of `new_missing_extension_no_foreign_calls` at a concrete
instance without the extension. -/
theorem new_missing_extension_no_foreign_calls_app :
    DebugCallback.new { loaded_extensions := { ext_debug_utils := false } }
        MessageFilter.all (Except.ok 5) =
      (NewOutcome.failed DebugCallbackCreationError.MissingExtension, []) :=
  new_missing_extension_no_foreign_calls
    { loaded_extensions := { ext_debug_utils := false } }
    MessageFilter.all (Except.ok 5) rfl

/-- Claim C9: releasing a `DebugCallback` emits exactly one deregistration
call, and that call precedes the release of the handle's shared reference
to the owning instance.  (Rust runs `drop` at most once per value, so the
trace below is issued exactly once per handle; the `Deregistered` state is
terminal.) -/
theorem drop_dereg_once_before_release (cb : DebugCallback) :
    cb.drop.countP TraceEvent.isDestroy = 1 ∧
    cb.drop[0]? =
      some (TraceEvent.destroyDebugUtilsMessenger cb.debug_utils_messenger) ∧
    cb.drop[1]? = some TraceEvent.releaseInstanceRef := by
  refine ⟨?_, ?_, ?_⟩ <;> simp [DebugCallback.drop, TraceEvent.isDestroy]

/-- Claim C1: on any invocation whose foreign record converts to a
`Message`, the trampoline returns `vk::FALSE`, whatever the user callback
does — in particular when the user callback panics, since `catch_unwind`
swallows the panic and its result is discarded. -/
theorem trampoline_swallows_user_panic
    (sev ty : Nat) (d : DebugUtilsMessengerCallbackDataEXT) (m : Message)
    (h : convert sev ty d = Except.ok m)
    (user_callback : Message → Except RustPanic Unit) :
    callback sev ty d user_callback = Except.ok Vk.FALSE := by
  unfold callback
  rw [h]

/-- Instantiation of `trampoline_swallows_user_panic` with a user callback
that panics on every invocation. -/
theorem trampoline_swallows_user_panic_app :
    callback 0 0 recEmpty (fun _ => Except.error RustPanic.panicked) =
      Except.ok Vk.FALSE :=
  trampoline_swallows_user_panic 0 0 recEmpty msgEmpty rfl
    (fun _ => Except.error RustPanic.panicked)

/-- Claim C6 (amended): the trampoline's outcome is exactly the conversion
outcome mapped to `vk::FALSE` — a failure raised by the user callback is
contained (the result is still `Ok vk::FALSE`), but a conversion failure
(e.g. non-UTF-8 text) is a panic raised outside the `catch_unwind` barrier
and leaves the trampoline as an unwinding panic. -/
theorem trampoline_error_containment_policy
    (sev ty : Nat) (d : DebugUtilsMessengerCallbackDataEXT)
    (user_callback : Message → Except RustPanic Unit) :
    callback sev ty d user_callback =
      (convert sev ty d).map (fun _ => Vk.FALSE) := by
  unfold callback
  cases convert sev ty d <;> rfl

/-- Claim C6 (counterexample to the claim as stated): on a record whose
id-name text is the invalid UTF-8 byte `0xFF`, the trampoline's outcome is
an uncaught panic — the conversion error is not contained at the trampoline
boundary, even with a user callback that never fails. -/
theorem conversion_panic_escapes_trampoline :
    callback 0 0 recBadIdName (fun _ => Except.ok ()) =
      Except.error RustPanic.panicked := by
  rfl

/-- Claim C4: a label entry or object entry with a null name pointer
converts successfully, producing an element whose name is the empty string
and whose remaining fields are copied from the source entry. -/
theorem null_name_gives_empty
    (l : DebugUtilsLabelEXT) (hl : l.pLabelName = Option.none)
    (o : DebugUtilsObjectNameInfoEXT) (ho : o.pObjectName = Option.none) :
    MessageLabel.from_raw l = Except.ok { name := [], color := l.color } ∧
    ObjectNameInfo.from_raw o =
      Except.ok { ty := o.objectType, handle := o.objectHandle, name := [] } := by
  constructor
  · unfold MessageLabel.from_raw
    simp only [hl]
  · unfold ObjectNameInfo.from_raw
    simp only [ho]

/-- Instantiation of `null_name_gives_empty` at a concrete null-named label
and object. -/
theorem null_name_gives_empty_app :
    MessageLabel.from_raw { pLabelName := Option.none, color := [1, 2, 3, 4] } =
      Except.ok { name := [], color := [1, 2, 3, 4] } :=
  (null_name_gives_empty { pLabelName := Option.none, color := [1, 2, 3, 4] } rfl
    { objectType := 7, objectHandle := 0x42, pObjectName := Option.none } rfl).1

/-- Claim C3: when the declared counts do not exceed the backing arrays and
conversion succeeds, the produced `Message` has exactly
`queueLabelCount` queue labels, `cmdBufLabelCount` command-buffer labels
and `objectCount` objects, each converted from the source entry at the
same index (so in original order), with name, color, type tag and handle
taken from that entry; only the first `count` entries of each array are
read (`slice_from_raw_parts` is `List.take`). -/
theorem conversion_lengths_order_fields
    (sev ty : Nat) (d : DebugUtilsMessengerCallbackDataEXT) (m : Message)
    (hq : d.queueLabelCount ≤ d.pQueueLabels.length)
    (hc : d.cmdBufLabelCount ≤ d.pCmdBufLabels.length)
    (ho : d.objectCount ≤ d.pObjects.length)
    (h : convert sev ty d = Except.ok m) :
    m.queue_labels.length = d.queueLabelCount ∧
    m.command_buffer_labels.length = d.cmdBufLabelCount ∧
    m.objects.length = d.objectCount ∧
    (∀ i, i < d.queueLabelCount →
      ∃ src lab, d.pQueueLabels[i]? = some src ∧ m.queue_labels[i]? = some lab ∧
        MessageLabel.from_raw src = Except.ok lab ∧
        lab.color = src.color ∧ lab.name = src.pLabelName.getD []) ∧
    (∀ i, i < d.cmdBufLabelCount →
      ∃ src lab, d.pCmdBufLabels[i]? = some src ∧
        m.command_buffer_labels[i]? = some lab ∧
        MessageLabel.from_raw src = Except.ok lab ∧
        lab.color = src.color ∧ lab.name = src.pLabelName.getD []) ∧
    (∀ i, i < d.objectCount →
      ∃ src obj, d.pObjects[i]? = some src ∧ m.objects[i]? = some obj ∧
        ObjectNameInfo.from_raw src = Except.ok obj ∧
        obj.ty = src.objectType ∧ obj.handle = src.objectHandle ∧
        obj.name = src.pObjectName.getD []) := by
  unfold convert at h
  cases h1 : expectUtf8 d.pMessageIdName with
  | error e => simp only [h1] at h; exact absurd h (by simp)
  | ok idName =>
  simp only [h1] at h
  cases h2 : expectUtf8 d.pMessage with
  | error e => simp only [h2] at h; exact absurd h (by simp)
  | ok desc =>
  simp only [h2] at h
  cases h3 : mapRaw MessageLabel.from_raw
      (slice_from_raw_parts d.pCmdBufLabels d.cmdBufLabelCount) with
  | error e => simp only [h3] at h; exact absurd h (by simp)
  | ok cmdLabels =>
  simp only [h3] at h
  cases h4 : mapRaw MessageLabel.from_raw
      (slice_from_raw_parts d.pQueueLabels d.queueLabelCount) with
  | error e => simp only [h4] at h; exact absurd h (by simp)
  | ok qLabels =>
  simp only [h4] at h
  cases h5 : mapRaw ObjectNameInfo.from_raw
      (slice_from_raw_parts d.pObjects d.objectCount) with
  | error e => simp only [h5] at h; exact absurd h (by simp)
  | ok objs =>
  simp only [h5, Except.ok.injEq] at h
  subst h
  refine ⟨?_, ?_, ?_, ?_, ?_, ?_⟩
  · have hl := mapRaw_ok_length _ h4
    simp only [slice_from_raw_parts, List.length_take] at hl
    simpa [Nat.min_eq_left hq] using hl
  · have hl := mapRaw_ok_length _ h3
    simp only [slice_from_raw_parts, List.length_take] at hl
    simpa [Nat.min_eq_left hc] using hl
  · have hl := mapRaw_ok_length _ h5
    simp only [slice_from_raw_parts, List.length_take] at hl
    simpa [Nat.min_eq_left ho] using hl
  · intro i hi
    have hi2 : i < (slice_from_raw_parts d.pQueueLabels d.queueLabelCount).length := by
      simp only [slice_from_raw_parts, List.length_take]
      omega
    obtain ⟨src, lab, hsrc, hlab, hfr⟩ := mapRaw_ok_get _ h4 i hi2
    have hfields := messageLabel_from_raw_fields hfr
    rw [slice_from_raw_parts, List.getElem?_take, if_pos hi] at hsrc
    exact ⟨src, lab, hsrc, by simpa using hlab, hfr, hfields.1, hfields.2⟩
  · intro i hi
    have hi2 : i < (slice_from_raw_parts d.pCmdBufLabels d.cmdBufLabelCount).length := by
      simp only [slice_from_raw_parts, List.length_take]
      omega
    obtain ⟨src, lab, hsrc, hlab, hfr⟩ := mapRaw_ok_get _ h3 i hi2
    have hfields := messageLabel_from_raw_fields hfr
    rw [slice_from_raw_parts, List.getElem?_take, if_pos hi] at hsrc
    exact ⟨src, lab, hsrc, by simpa using hlab, hfr, hfields.1, hfields.2⟩
  · intro i hi
    have hi2 : i < (slice_from_raw_parts d.pObjects d.objectCount).length := by
      simp only [slice_from_raw_parts, List.length_take]
      omega
    obtain ⟨src, obj, hsrc, hobj, hfr⟩ := mapRaw_ok_get _ h5 i hi2
    have hfields := objectNameInfo_from_raw_fields hfr
    rw [slice_from_raw_parts, List.getElem?_take, if_pos hi] at hsrc
    exact ⟨src, obj, hsrc, by simpa using hobj, hfr, hfields.1, hfields.2.1,
      hfields.2.2⟩

/-- Instantiation of `conversion_lengths_order_fields` at `recFull`: two
queue labels, one command-buffer label and one object are produced, even
though every backing array holds one extra entry past the declared count
(and the extra entries would panic if read). -/
theorem conversion_lengths_order_fields_app :
    msgFull.queue_labels.length = recFull.queueLabelCount ∧
    msgFull.command_buffer_labels.length = recFull.cmdBufLabelCount ∧
    msgFull.objects.length = recFull.objectCount :=
  have t := conversion_lengths_order_fields 0x1000 0x1 recFull msgFull
    (by decide) (by decide) (by decide) rfl
  ⟨t.1, t.2.1, t.2.2.1⟩

end Vulkano
